import Mathlib

/-!
Verification of the incremental ingestion-and-forecast pipeline of the
nj-electricity-forecast repository.

Shallow embedding conventions:
* A calendar month ("period") is an integer month index, so `period + 1`
  models "+ 1 month" and `period - 12` models "- 12 months".
* `pandas` missing values (`NaN` / `NaT` / SQL `NULL`) are modelled with
  `Option`: `none` is the missing value.
* A JSON / dict field that may be absent is an outer `Option` layer:
  `none` means the key is absent (Python raises `KeyError` on access),
  `some none` means the key is present with a null value.
* Decimal sales values are modelled with `ℚ`.
-/

/-- A normalized observation row, as stored in the processed series
(`electricity_sales.parquet` contents / the forecaster's `df`):
`period` is `none` for a `NaT` period, `sales` is `none` for `NaN`. -/
structure NRec where
  period : Option Int
  sales : Option ℚ
deriving DecidableEq, Repr

/-- A raw provider record (one dict of the payload's `data` list).
`period = none` / `sales = none` mean the key is absent from the record,
`sales = some none` means the key is present but the value is non-numeric
(so `pd.to_numeric(..., errors = "coerce")` yields `NaN`). -/
structure RawRecord where
  period : Option Int
  sales : Option (Option ℚ)
deriving DecidableEq, Repr

/-- The provider response body: `response.get("data", [])`. -/
structure IngestPayload where
  data : List RawRecord
deriving DecidableEq, Repr

/-- Row conversion `pd.DataFrame(records)[["period", "sales"]]` followed by
`pd.to_datetime` / `pd.to_numeric(errors = "coerce")`: an absent key becomes
a missing cell, a present non-numeric value also becomes `NaN`. -/
def toNRec (r : RawRecord) : NRec :=
  { period := r.period, sales := r.sales.join }

/-- Maximum of a list of month indices, `none` on the empty list
(`df["period"].max()` skips `NaT` entries; callers pass the list of
non-missing periods). -/
def listMax? : List Int → Option Int
  | [] => none
  | x :: xs =>
    match listMax? xs with
    | none => some x
    | some m => some (max x m)

/-- Comparison used by `sort_values("period")`: `NaT` sorts last
(`na_position = "last"`). -/
def perLe (a b : NRec) : Bool :=
  match a.period, b.period with
  | some x, some y => decide (x ≤ y)
  | some _, none => true
  | none, none => true
  | none, some _ => false

/-- Model of `df.sort_values("period")`. -/
def sortByPeriod (l : List NRec) : List NRec :=
  l.insertionSort (fun a b => perLe a b = true)

/-! ## Supabase observation store (`src/supabase_io.py`) -/

/-- A row handed to `upsert_electricity_sales` after type normalization:
a concrete period key and a possibly-`NaN` sales value (a `NaN` value is
bound as SQL `NULL`: `float(row["sales"]) if pd.notnull(...) else None`). -/
structure SRow where
  period : Int
  sales : Option ℚ
deriving DecidableEq, Repr

/-- The `electricity_sales` table: at most one row per period (the period is
the primary key); a stored row's sales value may itself be `NULL`. -/
def SStore : Type := Int → Option (Option ℚ)

/-- One `INSERT ... ON CONFLICT (period) DO UPDATE SET sales = EXCLUDED.sales`
statement. -/
def upsertRow (S : SStore) (r : SRow) : SStore :=
  fun p => if p = r.period then some r.sales else S p

/-- Model of `upsert_electricity_sales`: early return on an empty frame, otherwise one
upsert statement per row, in row order. -/
def upsert_electricity_sales (S : SStore) (df : List SRow) : SStore :=
  if df.isEmpty then S else df.foldl upsertRow S

/-! ## Models table (`upsert_model_metadata` in `src/supabase_io.py`) -/

/-- A row of the `models` table. `params` holds the JSON text produced by
`json.dumps`; timestamps are abstract ticks. -/
structure ModelRow where
  id : Nat
  model_name : String
  saved_location : Option String
  trained_from : Option Int
  trained_through : Option Int
  last_observed : Option Int
  params : Option String
  created_at : Nat
  updated_at : Nat
deriving DecidableEq, Repr

/-- The metadata argument of `upsert_model_metadata`: `meta.get(k)` is `none`
when the key is absent or null (`params` is already JSON-encoded, `none`
when `meta.get("params")` is `None`). -/
structure MetaPatch where
  saved_location : Option String
  trained_from : Option Int
  trained_through : Option Int
  last_observed : Option Int
  params : Option String
deriving DecidableEq, Repr

/-- SQL `COALESCE(:new, old)`. -/
def coalesce {α : Type} (new old : Option α) : Option α :=
  match new with
  | some v => some v
  | none => old

/-- The `UPDATE models SET ... = COALESCE(:field, field), updated_at = :now`
statement applied to one row. -/
def applyMetaUpdate (meta : MetaPatch) (now : Nat) (r : ModelRow) : ModelRow :=
  { r with
    saved_location := coalesce meta.saved_location r.saved_location
    trained_from := coalesce meta.trained_from r.trained_from
    trained_through := coalesce meta.trained_through r.trained_through
    last_observed := coalesce meta.last_observed r.last_observed
    params := coalesce meta.params r.params
    updated_at := now }

/-- Model of `upsert_model_metadata`: if a row with the model name exists, update it
in place (the `WHERE model_name = :name` clause touches every matching row);
otherwise insert a fresh row whose `created_at` and `updated_at` are `now`. -/
def upsert_model_metadata (table : List ModelRow) (name : String)
    (meta : MetaPatch) (now : Nat) (newId : Nat) : List ModelRow :=
  if table.any (fun r => r.model_name = name) then
    table.map (fun r => if r.model_name = name then applyMetaUpdate meta now r else r)
  else
    table ++ [{ id := newId, model_name := name,
                saved_location := meta.saved_location,
                trained_from := meta.trained_from,
                trained_through := meta.trained_through,
                last_observed := meta.last_observed,
                params := meta.params,
                created_at := now, updated_at := now }]

/-! ## Normalization (`src/eia_client.py` and `src/monthly_data_ingest.py`) -/

/-- A record list has a `period` column iff at least one record carries the
key (`pandas` builds the column set from the union of the dict keys). -/
def hasPeriodCol (records : List RawRecord) : Bool :=
  records.any (fun r => r.period.isSome)

/-- A record list has a `sales` column iff at least one record carries it. -/
def hasSalesCol (records : List RawRecord) : Bool :=
  records.any (fun r => r.sales.isSome)

namespace EiaClient

/-- Model of `transform_raw_to_df` of `src/eia_client.py`: an empty response dict or
an empty record list yields an empty frame; a record list missing the
`period` or `sales` column is degraded to an empty frame ("for safety
return empty"); otherwise select the two columns, coerce, and sort. -/
def transform_raw_to_df (raw : Option IngestPayload) : List NRec :=
  match raw with
  | none => []
  | some payload =>
    if payload.data.isEmpty then []
    else if hasPeriodCol payload.data && hasSalesCol payload.data then
      sortByPeriod (payload.data.map toNRec)
    else []

end EiaClient

/-- The error raised by a pandas column selection on a missing column
(`df[["period", "sales"]]` raises `KeyError`). -/
inductive PandasErr where
  | keyError
deriving DecidableEq, Repr

namespace MonthlyIngest

/-- Model of `transform` of `src/monthly_data_ingest.py`: an empty record list yields
an empty frame, but `df[["period", "sales"]]` raises a `KeyError` when a
non-empty record list lacks one of the two columns; records with a missing
or non-numeric cell are kept as null-valued rows (there is no `dropna`).
This transform does not sort. -/
def transform (data : IngestPayload) : Except PandasErr (List NRec) :=
  if data.data.isEmpty then .ok []
  else if hasPeriodCol data.data && hasSalesCol data.data then
    .ok (data.data.map toNRec)
  else .error .keyError

/-- Failure points of the incremental ingest run that depend on the outside
world: the initial parquet read, the provider HTTP fetch, the raw-JSON
archive write, and the processed-store write. -/
inductive IFail where
  | loadStore
  | fetchFail
  | saveRaw
  | saveStore
deriving DecidableEq, Repr

inductive Outcome where
  | success
  | noUpdate
  | error
deriving DecidableEq, Repr

/-- One run-log entry of the ingest script (`log_event` rows). -/
inductive ILog where
  | ierror
  | inoUpdate (next : Int)
  | iupdated (next : Int)
deriving DecidableEq, Repr

/-- Result of one ingest invocation: the processed parquet contents
(`none` when the file does not exist), the raw snapshots written during the
run, the run-log entries appended during the run, and the outcome. -/
structure IngestResult where
  store : Option (List NRec)
  rawSaved : List (Int × IngestPayload)
  logs : List ILog
  outcome : Outcome
deriving DecidableEq, Repr

/-- The `__main__` block of `src/monthly_data_ingest.py`.

* missing parquet → `RuntimeError` → logged `ERROR` and re-raised;
* `latest_stored + 1` is the next expected month (`df["period"].max()`
  skips `NaT`; an empty maximum makes `strftime` raise, logged `ERROR`);
* fetch failure (`raise_for_status` / network) → logged `ERROR`;
* a `KeyError` in `transform` → logged `ERROR`;
* an empty normalized frame → `no_update` log, nothing written;
* otherwise the raw JSON is archived first, then the concatenated,
  re-sorted frame replaces the parquet and a success row is logged. -/
def ingestRun (store0 : Option (List NRec)) (provider : Int → IngestPayload)
    (iork : IFail → Bool) : IngestResult :=
  if iork .loadStore then ⟨store0, [], [.ierror], .error⟩ else
  match store0 with
  | none => ⟨none, [], [.ierror], .error⟩
  | some dfE =>
    match listMax? (dfE.filterMap (fun o => o.period)) with
    | none => ⟨some dfE, [], [.ierror], .error⟩
    | some latest =>
      let next := latest + 1
      if iork .fetchFail then ⟨some dfE, [], [.ierror], .error⟩ else
      let payload := provider next
      match transform payload with
      | .error _ => ⟨some dfE, [], [.ierror], .error⟩
      | .ok dfNew =>
        if dfNew.isEmpty then ⟨some dfE, [], [.inoUpdate next], .noUpdate⟩
        else
        if iork .saveRaw then ⟨some dfE, [], [.ierror], .error⟩ else
        if iork .saveStore then ⟨some dfE, [(next, payload)], [.ierror], .error⟩ else
        ⟨some (sortByPeriod (dfE ++ dfNew)), [(next, payload)], [.iupdated next], .success⟩

end MonthlyIngest

/-! ## Incremental forecaster (`src/monthly_forecast.py`) -/

namespace MonthlyForecast

open MonthlyIngest (Outcome)

/-- The model metadata JSON (`sarima_v1.meta.json`). An outer `none` means
the key is absent from the dict (access raises `KeyError`), `some none`
means the key holds `null` (`pd.to_datetime(None)` is `NaT`). -/
structure Meta where
  last_observed : Option (Option Int)
  trained_through : Option (Option Int)
  trained_from : Option (Option Int)
  updated_at : Option String
deriving DecidableEq, Repr

/-- The persisted model state: the pickled blob (modelled by the list of
observations the fitted state has absorbed, in absorption order) plus the
metadata JSON. -/
structure ModelFiles where
  blob : List NRec
  meta : Meta
deriving DecidableEq, Repr

/-- Failure points of the forecaster run that depend on the outside world:
the parquet read, the model/metadata read, the two halves of `save_model`
(`joblib.dump` on the blob, then `json.dump` on the metadata), and the two
forecast-CSV appends. -/
inductive FailPoint where
  | loadData
  | loadModel
  | saveBlob
  | saveMeta
  | appendSarima
  | appendSnaive
deriving DecidableEq, Repr

/-- One row appended to a forecast CSV by `append_forecast_row`.
`value = none` records the `float("nan")` written for a missing
seasonal-naive reference. -/
structure FRow where
  period : Int
  model : String
  value : Option ℚ
  ts : String
deriving DecidableEq, Repr

/-- One run-log entry of the forecaster (`log_event` rows). -/
inductive FLog where
  | errorLog
  | noNewObs (through : Int)
  | stateUpdated (rows : Nat) (through : Int)
  | forecastsWritten (target : Int)
  | snaiveMissing (target : Int)
deriving DecidableEq, Repr

/-- Discriminator for the state-update log entry (line 100's `log_event`
call, made right after `save_model`). -/
def FLog.isStateUpdate : FLog → Bool
  | .stateUpdated _ _ => true
  | _ => false

/-- Discriminator for the two forecast log entries (lines 119 and 123). -/
def FLog.isForecastLog : FLog → Bool
  | .forecastsWritten _ => true
  | .snaiveMissing _ => true
  | _ => false

/-- Discriminator for the error log entry written by the `except` block
(line 126). -/
def FLog.isErrorLog : FLog → Bool
  | .errorLog => true
  | _ => false

/-- Result of one forecaster invocation: the model files on disk after the
run (`none` when missing), the rows appended to the two forecast CSVs, the
run-log entries appended, and the outcome. -/
structure RunResult where
  state : Option ModelFiles
  sarimaAppends : List FRow
  snaiveAppends : List FRow
  logs : List FLog
  outcome : Outcome
deriving DecidableEq, Repr

/-- Line 83, `pd.to_datetime(meta["last_observed"])`: a missing key raises
`KeyError`, a `null` value becomes `NaT` (`some none`), otherwise the parsed
period. -/
def absorptionCut (m : Meta) : Except PandasErr (Option Int) :=
  match m.last_observed with
  | none => .error .keyError
  | some v => .ok v

/-- Line 84, `df[df["period"] > last_in_model]`: every comparison against
`NaT` — on either side — is `False`. -/
def newObsOf (df : List NRec) (cutv : Option Int) : List NRec :=
  df.filter (fun o =>
    match cutv, o.period with
    | some t, some p => decide (t < p)
    | _, _ => false)

/-- Model of `df["period"].max()` over the loaded series (line 97 / line 104):
the maximum non-`NaT` period. The `getD` default is only reached when the
series has no real period at all, in which case the caller never uses it
(`new_obs` would have been empty). -/
def seriesMax (df0 : List NRec) : Int :=
  (listMax? ((sortByPeriod df0).filterMap (fun o => o.period))).getD 0

/-- Model of `fitted.append(series_to_append, refit = False)`: the blob after the
stateful extension absorbs exactly the new observations, in series order. -/
def extBlob (df0 : List NRec) (S : ModelFiles) (cutv : Option Int) : List NRec :=
  S.blob ++ newObsOf (sortByPeriod df0) cutv

/-- Lines 97–98: the metadata rewritten by a successful `save_model`. -/
def savedMeta (m : Meta) (M : Int) (now : String) : Meta :=
  { m with last_observed := some (some M), updated_at := some now }

/-- The fully persisted model state after the extend-then-persist step. -/
def extendedState (df0 : List NRec) (S : ModelFiles) (cutv : Option Int)
    (now : String) : ModelFiles :=
  ⟨extBlob df0 S cutv, savedMeta S.meta (seriesMax df0) now⟩

/-- The SARIMA forecast row for the target period (lines 107–110); the
1-step-ahead point forecast is the external capability `fc` applied to the
extended state. -/
def sarimaRow (df0 : List NRec) (S : ModelFiles) (cutv : Option Int)
    (fc : List NRec → ℚ) (now : String) : FRow :=
  ⟨seriesMax df0 + 1, "sarima_v1", some (fc (extBlob df0 S cutv)), now⟩

/-- Line 115–116: the rows of the series indexed at the seasonal-naive
reference period `target - 12 months`. -/
def refMatches (df0 : List NRec) (M : Int) : List NRec :=
  (sortByPeriod df0).filter (fun o => o.period = some (M + 1 - 12))

/-- Model of `main` of `src/monthly_forecast.py`.

* a missing parquet or model file, and a metadata dict without the
  `last_observed` key, raise before any write: `ERROR` is logged and the
  model files are untouched;
* no observation newer than the absorption point: one `no_update`-style log
  and an early return (a `NaT` absorption point also reaches this branch
  but `strftime` on `NaT` raises while formatting the message);
* otherwise `save_model` extends the blob and rewrites the metadata with
  `last_observed = df["period"].max()` (the blob write precedes the
  metadata write, so a failing metadata write leaves a fresh blob with
  stale metadata), a state-update row is logged, the SARIMA forecast for
  `max + 1` is appended, and the seasonal-naive forecast for the same
  target is appended with the observed value at `max + 1 - 12` when exactly
  one such row exists, with `NaN` when none does (a duplicated reference
  period makes `float` raise on a `Series`). -/
def forecasterRun (dfOpt : Option (List NRec)) (modelOpt : Option ModelFiles)
    (fc : List NRec → ℚ) (ork : FailPoint → Bool) (now : String) : RunResult :=
  if ork .loadData then ⟨modelOpt, [], [], [.errorLog], .error⟩ else
  match dfOpt with
  | none => ⟨modelOpt, [], [], [.errorLog], .error⟩
  | some df0 =>
    if ork .loadModel then ⟨modelOpt, [], [], [.errorLog], .error⟩ else
    match modelOpt with
    | none => ⟨none, [], [], [.errorLog], .error⟩
    | some S =>
      match absorptionCut S.meta with
      | .error _ => ⟨some S, [], [], [.errorLog], .error⟩
      | .ok cutv =>
        if (newObsOf (sortByPeriod df0) cutv).isEmpty then
          match cutv with
          | some t => ⟨some S, [], [], [.noNewObs t], .noUpdate⟩
          | none => ⟨some S, [], [], [.errorLog], .error⟩
        else
          if ork .saveBlob then ⟨some S, [], [], [.errorLog], .error⟩ else
          if ork .saveMeta then
            ⟨some ⟨extBlob df0 S cutv, S.meta⟩, [], [], [.errorLog], .error⟩
          else
            if ork .appendSarima then
              ⟨some (extendedState df0 S cutv now), [], [],
               [.stateUpdated (newObsOf (sortByPeriod df0) cutv).length (seriesMax df0),
                .errorLog], .error⟩
            else
              if 2 ≤ (refMatches df0 (seriesMax df0)).length then
                ⟨some (extendedState df0 S cutv now), [sarimaRow df0 S cutv fc now], [],
                 [.stateUpdated (newObsOf (sortByPeriod df0) cutv).length (seriesMax df0),
                  .errorLog], .error⟩
              else
                if ork .appendSnaive then
                  ⟨some (extendedState df0 S cutv now), [sarimaRow df0 S cutv fc now], [],
                   [.stateUpdated (newObsOf (sortByPeriod df0) cutv).length (seriesMax df0),
                    .errorLog], .error⟩
                else
                  match refMatches df0 (seriesMax df0) with
                  | [o] =>
                    ⟨some (extendedState df0 S cutv now), [sarimaRow df0 S cutv fc now],
                     [⟨seriesMax df0 + 1, "seasonal_naive", o.sales, now⟩],
                     [.stateUpdated (newObsOf (sortByPeriod df0) cutv).length (seriesMax df0),
                      .forecastsWritten (seriesMax df0 + 1)], .success⟩
                  | _ =>
                    ⟨some (extendedState df0 S cutv now), [sarimaRow df0 S cutv fc now],
                     [⟨seriesMax df0 + 1, "seasonal_naive", none, now⟩],
                     [.stateUpdated (newObsOf (sortByPeriod df0) cutv).length (seriesMax df0),
                      .snaiveMissing (seriesMax df0 + 1)], .success⟩


/-- Following the spec's wording of step 5 (for comparison with the code's
`absorptionCut`): "prefer `last_observed`; fall back to `trained_through`
if `last_observed` is unset. If neither is present, stop with a
configuration error." -/
def specAbsorptionPoint (m : Meta) : Except PandasErr Int :=
  match m.last_observed with
  | some (some t) => .ok t
  | _ =>
    match m.trained_through with
    | some (some t) => .ok t
    | _ => .error .keyError
end MonthlyForecast

/-! ## Theorems -/

theorem listMax?_eq_none_iff (l : List Int) : listMax? l = none ↔ l = [] := by
  cases l with
  | nil => simp [listMax?]
  | cons x xs =>
    simp only [listMax?]
    cases listMax? xs <;> simp

theorem listMax?_mem {l : List Int} {m : Int} (h : listMax? l = some m) : m ∈ l := by
  induction l generalizing m with
  | nil => simp [listMax?] at h
  | cons x xs ih =>
    simp only [listMax?] at h
    cases hxs : listMax? xs with
    | none => rw [hxs] at h; simp at h; simp [h]
    | some m' =>
      rw [hxs] at h
      simp at h
      rcases max_choice x m' with hc | hc
      · exact List.mem_cons.mpr (Or.inl (by rw [← h, hc]))
      · exact List.mem_cons.mpr (Or.inr (by rw [← h, hc]; exact ih hxs))

theorem listMax?_le {l : List Int} {m : Int} (h : listMax? l = some m) :
    ∀ x ∈ l, x ≤ m := by
  induction l generalizing m with
  | nil => simp
  | cons x xs ih =>
    simp only [listMax?] at h
    intro y hy
    cases hxs : listMax? xs with
    | none =>
      rw [hxs] at h
      simp at h
      rw [listMax?_eq_none_iff] at hxs
      subst hxs
      simp at hy
      omega
    | some m' =>
      rw [hxs] at h
      simp at h
      rcases List.mem_cons.mp hy with hy | hy
      · subst hy; omega
      · have := ih hxs y hy
        omega

theorem listMax?_isSome {l : List Int} (h : l ≠ []) : ∃ m, listMax? l = some m := by
  cases hl : listMax? l with
  | none => exact absurd ((listMax?_eq_none_iff l).mp hl) h
  | some m => exact ⟨m, rfl⟩

theorem listMax?_perm {l l' : List Int} (h : l.Perm l') : listMax? l = listMax? l' := by
  cases hl : listMax? l with
  | none =>
    rw [listMax?_eq_none_iff] at hl
    subst hl
    rw [(listMax?_eq_none_iff l').mpr h.nil_eq.symm]
  | some m =>
    cases hl' : listMax? l' with
    | none =>
      rw [listMax?_eq_none_iff] at hl'
      subst hl'
      rw [List.Perm.eq_nil h, listMax?] at hl
      exact absurd hl (by simp)
    | some m' =>
      have h1 : m ≤ m' := listMax?_le hl' m (h.mem_iff.mp (listMax?_mem hl))
      have h2 : m' ≤ m := listMax?_le hl m' (h.mem_iff.mpr (listMax?_mem hl'))
      exact congrArg some (le_antisymm h1 h2)

theorem sortByPeriod_perm (l : List NRec) : (sortByPeriod l).Perm l :=
  List.perm_insertionSort _ l

/-- The value at key `p` after a batch: the last row of the batch with
period `p` wins, otherwise the prior store value is untouched. -/
theorem upsert_foldl_apply (S : SStore) (df : List SRow) (p : Int) :
    df.foldl upsertRow S p =
      match df.reverse.find? (fun r => r.period = p) with
      | some r => some r.sales
      | none => S p := by
  induction df generalizing S with
  | nil => simp
  | cons r rs ih =>
    simp only [List.foldl_cons, List.reverse_cons, List.find?_append]
    rw [ih]
    cases hfind : rs.reverse.find? (fun r => r.period = p) with
    | some r' => simp
    | none =>
      simp only [Option.none_or]
      simp only [List.find?]
      by_cases hp : r.period = p
      · simp [hp, upsertRow]
      · have hd : (decide (r.period = p)) = false := by simp [hp]
        simp [hd, upsertRow]
        intro h
        exact absurd h.symm hp

theorem upsert_apply (S : SStore) (df : List SRow) (p : Int) :
    upsert_electricity_sales S df p =
      match df.reverse.find? (fun r => r.period = p) with
      | some r => some r.sales
      | none => S p := by
  unfold upsert_electricity_sales
  cases df with
  | nil => simp
  | cons r rs => rw [if_neg (by simp)]; exact upsert_foldl_apply S (r :: rs) p


namespace MonthlyForecast

/-- A non-empty `new_obs` frame exhibits an observation strictly past the
absorption point (so the cut was a real period, not `NaT`). -/
theorem newObsOf_ne_nil {df : List NRec} {cutv : Option Int}
    (h : newObsOf df cutv ≠ []) :
    ∃ t p o, cutv = some t ∧ o ∈ df ∧ o.period = some p ∧ t < p := by
  rcases List.exists_mem_of_ne_nil _ h with ⟨o, ho⟩
  rcases List.mem_filter.mp ho with ⟨hmem, hpred⟩
  cases hc : cutv with
  | none => rw [hc] at hpred; simp at hpred
  | some t =>
    cases hp : o.period with
    | none => rw [hc, hp] at hpred; simp at hpred
    | some p =>
      rw [hc, hp] at hpred
      simp at hpred
      exact ⟨t, p, o, rfl, hmem, hp, hpred⟩

/-- Inversion of a successful forecaster run: the inputs were complete, the
metadata carried a `last_observed` key, new observations existed, and the
run persisted exactly the extended state, appended the SARIMA row, logged
two rows, and appended the seasonal-naive record for the target period. -/
theorem forecasterRun_success_inv (dfOpt : Option (List NRec))
    (modelOpt : Option ModelFiles) (fc : List NRec → ℚ) (ork : FailPoint → Bool)
    (now : String)
    (h : (forecasterRun dfOpt modelOpt fc ork now).outcome = .success) :
    ∃ df0 S cutv,
      dfOpt = some df0 ∧ modelOpt = some S ∧
      absorptionCut S.meta = .ok cutv ∧
      newObsOf (sortByPeriod df0) cutv ≠ [] ∧
      (forecasterRun dfOpt modelOpt fc ork now).state =
        some (extendedState df0 S cutv now) ∧
      (forecasterRun dfOpt modelOpt fc ork now).sarimaAppends =
        [sarimaRow df0 S cutv fc now] ∧
      (forecasterRun dfOpt modelOpt fc ork now).logs.length = 2 ∧
      (refMatches df0 (seriesMax df0) = [] →
        (forecasterRun dfOpt modelOpt fc ork now).snaiveAppends =
          [⟨seriesMax df0 + 1, "seasonal_naive", none, now⟩]) ∧
      (∀ o, refMatches df0 (seriesMax df0) = [o] →
        (forecasterRun dfOpt modelOpt fc ork now).snaiveAppends =
          [⟨seriesMax df0 + 1, "seasonal_naive", o.sales, now⟩]) := by
  unfold forecasterRun at h
  split at h
  · simp at h
  rename_i h1
  split at h
  · simp at h
  rename_i df0
  split at h
  · simp at h
  rename_i h2
  split at h
  · simp at h
  rename_i S
  split at h
  · simp at h
  rename_i cutv hcut
  split at h
  · split at h <;> simp at h
  rename_i hne
  split at h
  · simp at h
  rename_i h3
  split at h
  · simp at h
  rename_i h4
  split at h
  · simp at h
  rename_i h5
  split at h
  · simp at h
  rename_i hlen
  split at h
  · simp at h
  rename_i h6
  refine ⟨df0, S, cutv, rfl, rfl, hcut, by simpa using hne, ?_⟩
  split at h
  · rename_i o hmatch
    refine ⟨?_, ?_, ?_, ?_, ?_⟩
    · simp [forecasterRun, h1, h2, h3, h4, h5, h6, hcut, hne, hlen, hmatch]
    · simp [forecasterRun, h1, h2, h3, h4, h5, h6, hcut, hne, hlen, hmatch]
    · simp [forecasterRun, h1, h2, h3, h4, h5, h6, hcut, hne, hlen, hmatch]
    · intro hnil
      rw [hmatch] at hnil
      simp at hnil
    · intro o' ho'
      rw [hmatch] at ho'
      simp at ho'
      subst ho'
      simp [forecasterRun, h1, h2, h3, h4, h5, h6, hcut, hne, hlen, hmatch]
  · rename_i hno
    have hnil : refMatches df0 (seriesMax df0) = [] := by
      cases hr : refMatches df0 (seriesMax df0) with
      | nil => rfl
      | cons a t =>
        cases t with
        | nil => exact absurd hr (by simpa using hno a)
        | cons b t2 =>
          rw [hr] at hlen
          exact absurd (by simp) hlen
    refine ⟨?_, ?_, ?_, ?_, ?_⟩
    · simp [forecasterRun, h1, h2, h3, h4, h5, h6, hcut, hne, hlen, hnil]
    · simp [forecasterRun, h1, h2, h3, h4, h5, h6, hcut, hne, hlen, hnil]
    · simp [forecasterRun, h1, h2, h3, h4, h5, h6, hcut, hne, hlen, hnil]
    · intro _
      simp [forecasterRun, h1, h2, h3, h4, h5, h6, hcut, hne, hlen, hnil]
    · intro o' ho'
      rw [hnil] at ho'
      simp at ho'

end MonthlyForecast

namespace MonthlyForecast

/-- With a `NaT` absorption point every `period > NaT` comparison is
`False`, so no observation counts as new. -/
theorem newObsOf_none (df : List NRec) : newObsOf df none = [] := by
  unfold newObsOf
  rw [List.filter_eq_nil_iff]
  intro a _
  cases a.period <;> simp

end MonthlyForecast

/-- C10: for an existing model row, `upsert_model_metadata` leaves every
field whose patch value is null unchanged (via `COALESCE`), overwrites a
field whose patch value is non-null, always refreshes `updated_at`, never
touches `id`, `model_name` or `created_at`, and leaves rows with other
model names in the table untouched. -/
theorem claim_C10_meta_upsert_frame (table : List ModelRow) (name : String)
    (meta : MetaPatch) (now newId : Nat) (r : ModelRow)
    (hr : r ∈ table) (hname : r.model_name = name) :
    applyMetaUpdate meta now r ∈ upsert_model_metadata table name meta now newId ∧
    (meta.saved_location = none →
      (applyMetaUpdate meta now r).saved_location = r.saved_location) ∧
    (∀ v, meta.saved_location = some v →
      (applyMetaUpdate meta now r).saved_location = some v) ∧
    (meta.trained_from = none →
      (applyMetaUpdate meta now r).trained_from = r.trained_from) ∧
    (∀ v, meta.trained_from = some v →
      (applyMetaUpdate meta now r).trained_from = some v) ∧
    (meta.trained_through = none →
      (applyMetaUpdate meta now r).trained_through = r.trained_through) ∧
    (∀ v, meta.trained_through = some v →
      (applyMetaUpdate meta now r).trained_through = some v) ∧
    (meta.last_observed = none →
      (applyMetaUpdate meta now r).last_observed = r.last_observed) ∧
    (∀ v, meta.last_observed = some v →
      (applyMetaUpdate meta now r).last_observed = some v) ∧
    (meta.params = none → (applyMetaUpdate meta now r).params = r.params) ∧
    (∀ v, meta.params = some v → (applyMetaUpdate meta now r).params = some v) ∧
    (applyMetaUpdate meta now r).updated_at = now ∧
    (applyMetaUpdate meta now r).id = r.id ∧
    (applyMetaUpdate meta now r).model_name = r.model_name ∧
    (applyMetaUpdate meta now r).created_at = r.created_at ∧
    (∀ r2 ∈ table, r2.model_name ≠ name →
      r2 ∈ upsert_model_metadata table name meta now newId) := by
  have hany : table.any (fun x => x.model_name = name) = true :=
    List.any_eq_true.mpr ⟨r, hr, by simp [hname]⟩
  refine ⟨?_, ?_, ?_, ?_, ?_, ?_, ?_, ?_, ?_, ?_, ?_, rfl, rfl, rfl, rfl, ?_⟩
  · unfold upsert_model_metadata
    rw [if_pos hany]
    exact List.mem_map.mpr ⟨r, hr, by rw [if_pos hname]⟩
  · intro h; simp [applyMetaUpdate, coalesce, h]
  · intro v h; simp [applyMetaUpdate, coalesce, h]
  · intro h; simp [applyMetaUpdate, coalesce, h]
  · intro v h; simp [applyMetaUpdate, coalesce, h]
  · intro h; simp [applyMetaUpdate, coalesce, h]
  · intro v h; simp [applyMetaUpdate, coalesce, h]
  · intro h; simp [applyMetaUpdate, coalesce, h]
  · intro v h; simp [applyMetaUpdate, coalesce, h]
  · intro h; simp [applyMetaUpdate, coalesce, h]
  · intro v h; simp [applyMetaUpdate, coalesce, h]
  · intro r2 hr2 hne
    unfold upsert_model_metadata
    rw [if_pos hany]
    exact List.mem_map.mpr ⟨r2, hr2, by rw [if_neg hne]⟩

/-- Witness for C10 at a concrete row: a null `last_observed` patch value
leaves the stored `last_observed` unchanged while `updated_at` moves. -/
theorem claim_C10_witness :
    (applyMetaUpdate ⟨some "y", none, none, none, none⟩ 5
        ⟨1, "m", some "x", some 2, some 3, some 4, some "p", 0, 0⟩).last_observed =
      (⟨1, "m", some "x", some 2, some 3, some 4, some "p", 0, 0⟩ : ModelRow).last_observed ∧
    (applyMetaUpdate ⟨some "y", none, none, none, none⟩ 5
        ⟨1, "m", some "x", some 2, some 3, some 4, some "p", 0, 0⟩).updated_at = 5 := by
  have h := claim_C10_meta_upsert_frame
    [⟨1, "m", some "x", some 2, some 3, some 4, some "p", 0, 0⟩] "m"
    ⟨some "y", none, none, none, none⟩ 5 9
    ⟨1, "m", some "x", some 2, some 3, some 4, some "p", 0, 0⟩
    (by simp) rfl
  exact ⟨h.2.2.2.2.2.2.2.1 rfl, h.2.2.2.2.2.2.2.2.2.2.2.1⟩

/-- Counterexample for C8: upserting a normalized batch that contains a
null-valued row writes that row to the store with a `NULL` value — the row
is not excluded from persistence — and normalization keeps (does not drop)
a record whose `sales` field is non-numeric. -/
theorem claim_C8_counterexample :
    MonthlyIngest.transform ⟨[⟨some 3, some (some 5)⟩, ⟨some 7, some none⟩]⟩ =
      .ok [⟨some 3, some 5⟩, ⟨some 7, none⟩] ∧
    (fun _ => none : SStore) 7 = none ∧
    upsert_electricity_sales (fun _ => none) [⟨7, none⟩] 7 = some none := by
  refine ⟨rfl, rfl, by decide⟩

/-- C8 (amended): normalization coerces a present non-numeric value to
null; when the payload carries both columns every record is kept (becoming
a null-valued row when its value is missing or non-numeric, with the row
count preserved); and persistence upserts a null-valued row with a stored
`NULL` value rather than excluding it. -/
theorem claim_C8_amended :
    (∀ p : Option Int, toNRec ⟨p, some none⟩ = ⟨p, none⟩) ∧
    (∀ payload : IngestPayload, payload.data ≠ [] →
      hasPeriodCol payload.data = true → hasSalesCol payload.data = true →
      MonthlyIngest.transform payload = .ok (payload.data.map toNRec) ∧
      (payload.data.map toNRec).length = payload.data.length) ∧
    (∀ (S : SStore) (p : Int) (sv : Option ℚ),
      upsert_electricity_sales S [⟨p, sv⟩] p = some sv) := by
  refine ⟨fun p => rfl, ?_, ?_⟩
  · intro payload hne hpc hsc
    have hempty : payload.data.isEmpty = false := by
      simpa [List.isEmpty_iff] using hne
    constructor
    · unfold MonthlyIngest.transform
      rw [hempty]
      simp [hpc, hsc]
    · simp
  · intro S p sv
    rw [upsert_apply]
    simp

/-- Witness for C8 (amended) at concrete inputs: a record with a
non-numeric `sales` value survives normalization as a null-valued row, and
a null-valued row lands in the store. -/
theorem claim_C8_witness :
    MonthlyIngest.transform ⟨[⟨some 1, some none⟩]⟩ = .ok [⟨some 1, none⟩] ∧
    upsert_electricity_sales (fun _ => none) [⟨2, none⟩] 2 = some none := by
  constructor
  · exact (claim_C8_amended.2.1 ⟨[⟨some 1, some none⟩]⟩ (by decide) (by decide)
      (by decide)).1
  · exact claim_C8_amended.2.2 (fun _ => none) 2 none

/-- Counterexample for C9: on a payload whose only record lacks the `sales`
field, the incremental ingest's normalization raises a `KeyError` instead
of returning an empty result, and the run surfaces as `error`, not
`no_update` (the store is still left unchanged). -/
theorem claim_C9_counterexample :
    MonthlyIngest.transform ⟨[⟨some 5, none⟩]⟩ = .error .keyError ∧
    (MonthlyIngest.ingestRun (some [⟨some 4, some 1⟩])
      (fun _ => ⟨[⟨some 5, none⟩]⟩) (fun _ => false)).outcome = .error ∧
    (MonthlyIngest.ingestRun (some [⟨some 4, some 1⟩])
      (fun _ => ⟨[⟨some 5, none⟩]⟩) (fun _ => false)).store =
      some [⟨some 4, some 1⟩] := by
  refine ⟨rfl, rfl, rfl⟩

/-- C9 (amended): `transform_raw_to_df` in `eia_client.py` degrades a
non-empty payload missing the `period` or `sales` column to an empty
frame, but the incremental ingest's own `transform` raises a `KeyError`
on such a payload, so the run is logged as `error` (with the store
unchanged); only an empty record list yields the empty result that
surfaces as `no_update`. -/
theorem claim_C9_amended :
    (∀ payload : IngestPayload, payload.data ≠ [] →
      hasPeriodCol payload.data = false ∨ hasSalesCol payload.data = false →
      EiaClient.transform_raw_to_df (some payload) = []) ∧
    (∀ payload : IngestPayload, payload.data ≠ [] →
      hasPeriodCol payload.data = false ∨ hasSalesCol payload.data = false →
      MonthlyIngest.transform payload = .error .keyError) ∧
    (∀ (dfE : List NRec) (provider : Int → IngestPayload)
        (iork : MonthlyIngest.IFail → Bool) (latest : Int),
      iork .loadStore = false → iork .fetchFail = false →
      listMax? (dfE.filterMap (fun o => o.period)) = some latest →
      (provider (latest + 1)).data ≠ [] →
      hasPeriodCol (provider (latest + 1)).data = false ∨
        hasSalesCol (provider (latest + 1)).data = false →
      (MonthlyIngest.ingestRun (some dfE) provider iork).outcome = .error ∧
      (MonthlyIngest.ingestRun (some dfE) provider iork).store = some dfE) ∧
    (∀ payload : IngestPayload, payload.data = [] →
      MonthlyIngest.transform payload = .ok []) := by
  have hcol : ∀ payload : IngestPayload, payload.data ≠ [] →
      hasPeriodCol payload.data = false ∨ hasSalesCol payload.data = false →
      MonthlyIngest.transform payload = .error .keyError := by
    intro payload hne hcols
    have hempty : payload.data.isEmpty = false := by
      simpa [List.isEmpty_iff] using hne
    unfold MonthlyIngest.transform
    rw [hempty]
    rcases hcols with h | h <;> simp [h]
  refine ⟨?_, hcol, ?_, ?_⟩
  · intro payload hne hcols
    have hempty : payload.data.isEmpty = false := by
      simpa [List.isEmpty_iff] using hne
    unfold EiaClient.transform_raw_to_df
    rcases hcols with h | h <;> simp [hempty, h]
  · intro dfE provider iork latest hls hff hM hne hcols
    have htr := hcol (provider (latest + 1)) hne hcols
    constructor <;> simp [MonthlyIngest.ingestRun, hls, hff, hM, htr]
  · intro payload hnil
    unfold MonthlyIngest.transform
    simp [hnil]

/-- Witness for C9 (amended) at concrete inputs. -/
theorem claim_C9_witness :
    EiaClient.transform_raw_to_df (some ⟨[⟨none, some (some 2)⟩]⟩) = [] ∧
    MonthlyIngest.transform ⟨[⟨none, some (some 2)⟩]⟩ = .error .keyError ∧
    (MonthlyIngest.ingestRun (some [⟨some 0, some 1⟩])
      (fun _ => ⟨[⟨none, some (some 2)⟩]⟩) (fun _ => false)).outcome = .error := by
  refine ⟨claim_C9_amended.1 _ (by decide) (by decide),
    claim_C9_amended.2.1 _ (by decide) (by decide),
    (claim_C9_amended.2.2.1 [⟨some 0, some 1⟩] (fun _ => ⟨[⟨none, some (some 2)⟩]⟩)
      (fun _ => false) 0 (by decide) (by decide) (by decide) (by decide)
      (by decide)).1⟩

/-- C6: in incremental mode, when the provider returns no record for the
next expected period, the run emits a `no_update` outcome, archives
nothing, and leaves the observation store unchanged. -/
theorem claim_C6_no_update (dfE : List NRec) (provider : Int → IngestPayload)
    (iork : MonthlyIngest.IFail → Bool) (latest : Int)
    (hls : iork .loadStore = false) (hff : iork .fetchFail = false)
    (hM : listMax? (dfE.filterMap (fun o => o.period)) = some latest)
    (hprov : (provider (latest + 1)).data = []) :
    (MonthlyIngest.ingestRun (some dfE) provider iork).outcome = .noUpdate ∧
    (MonthlyIngest.ingestRun (some dfE) provider iork).store = some dfE ∧
    (MonthlyIngest.ingestRun (some dfE) provider iork).rawSaved = [] := by
  have htr : MonthlyIngest.transform (provider (latest + 1)) = .ok [] := by
    unfold MonthlyIngest.transform
    simp [hprov]
  refine ⟨?_, ?_, ?_⟩ <;> simp [MonthlyIngest.ingestRun, hls, hff, hM, htr]

/-- Witness for C6 at a concrete store and provider. -/
theorem claim_C6_witness :
    (MonthlyIngest.ingestRun (some [⟨some 4, some 1⟩]) (fun _ => ⟨[]⟩)
      (fun _ => false)).outcome = .noUpdate ∧
    (MonthlyIngest.ingestRun (some [⟨some 4, some 1⟩]) (fun _ => ⟨[]⟩)
      (fun _ => false)).store = some [⟨some 4, some 1⟩] ∧
    (MonthlyIngest.ingestRun (some [⟨some 4, some 1⟩]) (fun _ => ⟨[]⟩)
      (fun _ => false)).rawSaved = [] :=
  claim_C6_no_update [⟨some 4, some 1⟩] (fun _ => ⟨[]⟩) (fun _ => false) 4
    (by decide) (by decide) (by decide) (by decide)

open MonthlyForecast in
/-- C2: after a successful forecaster run on a (necessarily non-empty)
observation series, the persisted `last_observed` equals the series'
maximum period, which is ≥ (indeed >) the pre-run `last_observed`. -/
theorem claim_C2_monotonic_watermark (df0 : List NRec) (S : ModelFiles)
    (fc : List NRec → ℚ) (ork : FailPoint → Bool) (now : String) (M : Int)
    (hsucc : (forecasterRun (some df0) (some S) fc ork now).outcome = .success)
    (hM : listMax? (df0.filterMap (fun o => o.period)) = some M) :
    (forecasterRun (some df0) (some S) fc ork now).state.map
      (fun s => s.meta.last_observed) = some (some (some M)) ∧
    (∀ t, S.meta.last_observed = some (some t) → t ≤ M) := by
  obtain ⟨df0', S', cutv, hdf, hS, hcut, hne, hstate, -, -, -, -⟩ :=
    forecasterRun_success_inv _ _ fc ork now hsucc
  injection hdf with hdf
  injection hS with hS
  subst hdf hS
  have hMs : listMax? ((sortByPeriod df0).filterMap (fun o => o.period)) = some M := by
    rw [listMax?_perm ((sortByPeriod_perm df0).filterMap (fun o => o.period))]
    exact hM
  have hsm : seriesMax df0 = M := by
    unfold seriesMax
    rw [hMs]
    rfl
  constructor
  · rw [hstate]
    simp [extendedState, savedMeta, hsm]
  · intro t ht
    have hct : cutv = some t := by
      unfold absorptionCut at hcut
      rw [ht] at hcut
      exact (Except.ok.injEq _ _ ▸ hcut).symm
    obtain ⟨t', p, o, hct', ho, hop, hlt⟩ := newObsOf_ne_nil hne
    rw [hct] at hct'
    injection hct' with hct'
    subst hct'
    have hpmem : p ∈ (sortByPeriod df0).filterMap (fun o => o.period) :=
      List.mem_filterMap.mpr ⟨o, ho, hop⟩
    have := listMax?_le hMs p hpmem
    omega

open MonthlyForecast MonthlyIngest in
/-- Witness for C2: a concrete successful run advancing the watermark
from period 0 to the series maximum 1. -/
theorem claim_C2_witness :
    (forecasterRun (some [⟨some 0, some 1⟩, ⟨some 1, some 2⟩])
      (some ⟨[⟨some 0, some 1⟩], ⟨some (some 0), some (some 0), none, none⟩⟩)
      (fun _ => 0) (fun _ => false) "t").state.map
      (fun s => s.meta.last_observed) = some (some (some 1)) :=
  (claim_C2_monotonic_watermark [⟨some 0, some 1⟩, ⟨some 1, some 2⟩]
    ⟨[⟨some 0, some 1⟩], ⟨some (some 0), some (some 0), none, none⟩⟩
    (fun _ => 0) (fun _ => false) "t" 1 (by decide) (by decide)).1

open MonthlyForecast in
/-- C7: every successful forecaster run appends a seasonal-naive
ForecastRecord for the target period `max + 1`: with a null value when the
series has no observation at `target - 12 months` (the record is written,
not omitted, and not defaulted to zero), and with exactly the observed
value when the series has that observation. -/
theorem claim_C7_benchmark_fallback (df0 : List NRec) (S : ModelFiles)
    (fc : List NRec → ℚ) (ork : FailPoint → Bool) (now : String) (M : Int)
    (hsucc : (forecasterRun (some df0) (some S) fc ork now).outcome = .success)
    (hM : listMax? (df0.filterMap (fun o => o.period)) = some M) :
    (df0.filter (fun o => o.period = some (M + 1 - 12)) = [] →
      (forecasterRun (some df0) (some S) fc ork now).snaiveAppends =
        [⟨M + 1, "seasonal_naive", none, now⟩]) ∧
    (∀ o, df0.filter (fun o => o.period = some (M + 1 - 12)) = [o] →
      (forecasterRun (some df0) (some S) fc ork now).snaiveAppends =
        [⟨M + 1, "seasonal_naive", o.sales, now⟩]) := by
  obtain ⟨df0', S', cutv, hdf, hS, hcut, hne, -, -, -, hsnil, hsone⟩ :=
    forecasterRun_success_inv _ _ fc ork now hsucc
  injection hdf with hdf
  injection hS with hS
  subst hdf hS
  have hMs : listMax? ((sortByPeriod df0).filterMap (fun o => o.period)) = some M := by
    rw [listMax?_perm ((sortByPeriod_perm df0).filterMap (fun o => o.period))]
    exact hM
  have hsm : seriesMax df0 = M := by
    unfold seriesMax
    rw [hMs]
    rfl
  have hperm : (refMatches df0 (seriesMax df0)).Perm
      (df0.filter (fun o => o.period = some (M + 1 - 12))) := by
    unfold refMatches
    rw [hsm]
    exact (sortByPeriod_perm df0).filter _
  rw [hsm] at hperm
  constructor
  · intro hnil
    rw [hsm] at hsnil
    exact hsnil (List.Perm.eq_nil (hnil ▸ hperm))
  · intro o ho
    rw [hsm] at hsone
    exact hsone o (List.perm_singleton.mp (ho ▸ hperm))

open MonthlyForecast MonthlyIngest in
/-- Witness for C7: a concrete successful run whose series has no
observation 12 months before the target, yielding a null-valued
seasonal-naive record. -/
theorem claim_C7_witness :
    (forecasterRun (some [⟨some 0, some 1⟩, ⟨some 1, some 2⟩])
      (some ⟨[⟨some 0, some 1⟩], ⟨some (some 0), some (some 0), none, none⟩⟩)
      (fun _ => 0) (fun _ => false) "t").snaiveAppends =
      [⟨2, "seasonal_naive", none, "t"⟩] :=
  (claim_C7_benchmark_fallback [⟨some 0, some 1⟩, ⟨some 1, some 2⟩]
    ⟨[⟨some 0, some 1⟩], ⟨some (some 0), some (some 0), none, none⟩⟩
    (fun _ => 0) (fun _ => false) "t" 1 (by decide) (by decide)).1 (by decide)

open MonthlyForecast MonthlyIngest in
/-- Counterexample for C5: on metadata whose `last_observed` key is absent
but whose `trained_through` is period 10, the code raises a `KeyError`
(and the whole run errors out) where the claimed behavior — captured by
`specAbsorptionPoint` — would fall back to `trained_through = 10`. -/
theorem claim_C5_counterexample :
    absorptionCut ⟨none, some (some 10), none, none⟩ = .error .keyError ∧
    specAbsorptionPoint ⟨none, some (some 10), none, none⟩ = .ok 10 ∧
    (forecasterRun (some [⟨some 0, some 1⟩])
      (some ⟨[], ⟨none, some (some 10), none, none⟩⟩)
      (fun _ => 0) (fun _ => false) "t").outcome = Outcome.error :=
  ⟨rfl, rfl, rfl⟩

namespace MonthlyForecast

/-- An absent `last_observed` key makes the whole run collapse to the
logged-and-reraised `KeyError` result, whatever else happens. -/
theorem run_keyError (dfOpt : Option (List NRec)) (S : ModelFiles)
    (fc : List NRec → ℚ) (ork : FailPoint → Bool) (now : String)
    (hlo : S.meta.last_observed = none) :
    forecasterRun dfOpt (some S) fc ork now =
      ⟨some S, [], [], [.errorLog], .error⟩ := by
  have hcut : absorptionCut S.meta = .error .keyError := by
    unfold absorptionCut
    rw [hlo]
  unfold forecasterRun
  split
  · rfl
  split
  · rfl
  split
  · rfl
  simp [hcut]

end MonthlyForecast

open MonthlyForecast in
/-- C5 (amended): the forecaster reads `last_observed` directly — a present
key (even a null one) is used as the absorption point, and an absent key
makes the run fail with a logged error and an unchanged model state;
`trained_through` is never consulted as a fallback. -/
theorem claim_C5_amended :
    (∀ m : Meta, m.last_observed = none → absorptionCut m = .error .keyError) ∧
    (∀ (m : Meta) (v : Option Int), m.last_observed = some v →
      absorptionCut m = .ok v) ∧
    (∀ (dfOpt : Option (List NRec)) (S : ModelFiles) (fc : List NRec → ℚ)
        (ork : FailPoint → Bool) (now : String),
      S.meta.last_observed = none →
      (forecasterRun dfOpt (some S) fc ork now).outcome = .error ∧
      (forecasterRun dfOpt (some S) fc ork now).state = some S) := by
  refine ⟨?_, ?_, ?_⟩
  · intro m h
    unfold absorptionCut
    rw [h]
  · intro m v h
    unfold absorptionCut
    rw [h]
  · intro dfOpt S fc ork now hlo
    rw [run_keyError dfOpt S fc ork now hlo]
    exact ⟨rfl, rfl⟩

open MonthlyForecast MonthlyIngest in
/-- Witness for C5 (amended) at concrete metadata without the
`last_observed` key. -/
theorem claim_C5_witness :
    absorptionCut ⟨none, none, none, none⟩ = .error .keyError ∧
    (forecasterRun (some []) (some ⟨[], ⟨none, none, none, none⟩⟩)
      (fun _ => 0) (fun _ => false) "x").outcome = Outcome.error :=
  ⟨claim_C5_amended.1 ⟨none, none, none, none⟩ rfl,
   (claim_C5_amended.2.2 (some []) ⟨[], ⟨none, none, none, none⟩⟩
     (fun _ => 0) (fun _ => false) "x" rfl).1⟩

open MonthlyForecast MonthlyIngest in
/-- Counterexample for C4: a successful forecaster invocation terminates
with two Run Log entries (the state-update entry and the forecast entry),
not exactly one. -/
theorem claim_C4_counterexample :
    (forecasterRun (some [⟨some 0, some 1⟩, ⟨some 1, some 2⟩])
      (some ⟨[⟨some 0, some 1⟩], ⟨some (some 0), some (some 0), none, none⟩⟩)
      (fun _ => 0) (fun _ => false) "t").outcome = Outcome.success ∧
    ¬ (forecasterRun (some [⟨some 0, some 1⟩, ⟨some 1, some 2⟩])
      (some ⟨[⟨some 0, some 1⟩], ⟨some (some 0), some (some 0), none, none⟩⟩)
      (fun _ => 0) (fun _ => false) "t").logs.length = 1 := by
  constructor <;> decide

open MonthlyForecast MonthlyIngest in
/-- C4 (amended): every ingestor invocation appends exactly one Run Log
entry. Every forecaster invocation appends either a single entry that is
not the state-update entry, or the state-update entry followed by exactly
one further entry: exactly one entry whenever the run stops before the
model-state update (no state-update entry was logged), exactly two
whenever the state update is logged, with the forecast entry second on
success and the error entry last on failure. -/
theorem claim_C4_amended :
    (∀ (dfOpt : Option (List NRec)) (modelOpt : Option ModelFiles)
        (fc : List NRec → ℚ) (ork : FailPoint → Bool) (now : String),
      ((forecasterRun dfOpt modelOpt fc ork now).logs.map FLog.isStateUpdate =
          [false] ∨
       (forecasterRun dfOpt modelOpt fc ork now).logs.map FLog.isStateUpdate =
          [true, false]) ∧
      ((forecasterRun dfOpt modelOpt fc ork now).logs.length = 1 ∨
       (forecasterRun dfOpt modelOpt fc ork now).logs.length = 2) ∧
      ((∀ n M, FLog.stateUpdated n M ∉
          (forecasterRun dfOpt modelOpt fc ork now).logs) →
        (forecasterRun dfOpt modelOpt fc ork now).logs.length = 1) ∧
      (∀ n M, FLog.stateUpdated n M ∈
          (forecasterRun dfOpt modelOpt fc ork now).logs →
        (forecasterRun dfOpt modelOpt fc ork now).logs.length = 2) ∧
      ((forecasterRun dfOpt modelOpt fc ork now).outcome = .success →
        (forecasterRun dfOpt modelOpt fc ork now).logs.map FLog.isForecastLog =
          [false, true] ∧
        (forecasterRun dfOpt modelOpt fc ork now).logs.length = 2) ∧
      ((forecasterRun dfOpt modelOpt fc ork now).outcome = .error →
        (forecasterRun dfOpt modelOpt fc ork now).logs.map FLog.isErrorLog =
          [true] ∨
        (forecasterRun dfOpt modelOpt fc ork now).logs.map FLog.isErrorLog =
          [false, true])) ∧
    (∀ (store0 : Option (List NRec)) (provider : Int → IngestPayload)
        (iork : IFail → Bool),
      (ingestRun store0 provider iork).logs.length = 1) := by
  constructor
  · intro dfOpt modelOpt fc ork now
    have hshape :
        (forecasterRun dfOpt modelOpt fc ork now).logs.map FLog.isStateUpdate =
          [false] ∨
        (forecasterRun dfOpt modelOpt fc ork now).logs.map FLog.isStateUpdate =
          [true, false] := by
      unfold forecasterRun
      (repeat' split) <;> simp [FLog.isStateUpdate]
    have hlen : (forecasterRun dfOpt modelOpt fc ork now).logs.length = 1 ∨
        (forecasterRun dfOpt modelOpt fc ork now).logs.length = 2 := by
      rcases hshape with h | h
      · left
        have := congrArg List.length h
        simpa using this
      · right
        have := congrArg List.length h
        simpa using this
    refine ⟨hshape, hlen, ?_, ?_, ?_, ?_⟩
    · intro hno
      rcases hshape with h | h
      · have := congrArg List.length h
        simpa using this
      · exfalso
        cases hl : (forecasterRun dfOpt modelOpt fc ork now).logs with
        | nil => rw [hl] at h; simp at h
        | cons e rest =>
          rw [hl] at h
          simp at h
          cases e with
          | errorLog => simp [FLog.isStateUpdate] at h
          | noNewObs t => simp [FLog.isStateUpdate] at h
          | stateUpdated n M =>
            exact hno n M (by rw [hl]; exact List.mem_cons_self _ _)
          | forecastsWritten p => simp [FLog.isStateUpdate] at h
          | snaiveMissing p => simp [FLog.isStateUpdate] at h
    · intro n M hmem
      rcases hshape with h | h
      · exfalso
        have hTrue : FLog.isStateUpdate (FLog.stateUpdated n M) ∈
            (forecasterRun dfOpt modelOpt fc ork now).logs.map FLog.isStateUpdate :=
          List.mem_map_of_mem _ hmem
        rw [h] at hTrue
        simp [FLog.isStateUpdate] at hTrue
      · have := congrArg List.length h
        simpa using this
    · intro hs
      constructor
      · revert hs
        unfold forecasterRun
        (repeat' split) <;> simp [FLog.isForecastLog]
      · obtain ⟨_, _, _, _, _, _, _, _, _, hlen2, _, _⟩ :=
          forecasterRun_success_inv _ _ fc ork now hs
        exact hlen2
    · intro he
      revert he
      unfold forecasterRun
      (repeat' split) <;> simp [FLog.isErrorLog]
  · intro store0 provider iork
    simp only [MonthlyIngest.ingestRun]
    (repeat' split) <;> simp

open MonthlyForecast MonthlyIngest in
/-- Witness for C4 (amended): a concrete no-update run (no state-update
entry logged) appends exactly one entry, a concrete successful run logs
the state-update entry followed by the forecast entry, and a concrete
ingest run logs one entry. -/
theorem claim_C4_witness :
    (forecasterRun (some [⟨some 0, some 1⟩])
      (some ⟨[⟨some 0, some 1⟩], ⟨some (some 0), some (some 0), none, none⟩⟩)
      (fun _ => 0) (fun _ => false) "t").logs.length = 1 ∧
    (forecasterRun (some [⟨some 0, some 1⟩, ⟨some 1, some 2⟩])
      (some ⟨[⟨some 0, some 1⟩], ⟨some (some 0), some (some 0), none, none⟩⟩)
      (fun _ => 0) (fun _ => false) "t").logs.map FLog.isForecastLog =
      [false, true] ∧
    (ingestRun (some [⟨some 4, some 1⟩]) (fun _ => ⟨[]⟩)
      (fun _ => false)).logs.length = 1 :=
  ⟨(claim_C4_amended.1 (some [⟨some 0, some 1⟩])
      (some ⟨[⟨some 0, some 1⟩], ⟨some (some 0), some (some 0), none, none⟩⟩)
      (fun _ => 0) (fun _ => false) "t").2.2.1
      (fun n M hmem => by
        rw [show (forecasterRun (some [⟨some 0, some 1⟩])
            (some ⟨[⟨some 0, some 1⟩], ⟨some (some 0), some (some 0), none, none⟩⟩)
            (fun _ => 0) (fun _ => false) "t").logs = [FLog.noNewObs 0] from rfl]
          at hmem
        simp at hmem),
   ((claim_C4_amended.1 (some [⟨some 0, some 1⟩, ⟨some 1, some 2⟩])
      (some ⟨[⟨some 0, some 1⟩], ⟨some (some 0), some (some 0), none, none⟩⟩)
      (fun _ => 0) (fun _ => false) "t").2.2.2.2.1 (by decide)).1,
   claim_C4_amended.2 (some [⟨some 4, some 1⟩]) (fun _ => ⟨[]⟩) (fun _ => false)⟩

namespace MonthlyForecast

/-- A `null` (`NaT`) `last_observed` also collapses the run to the
logged-and-reraised error result: every `period > NaT` comparison is
`False`, so `new_obs` is empty, and `strftime` on `NaT` raises while the
no-update message is being formatted. -/
theorem run_NaT (dfOpt : Option (List NRec)) (S : ModelFiles)
    (fc : List NRec → ℚ) (ork : FailPoint → Bool) (now : String)
    (hlo : S.meta.last_observed = some none) :
    forecasterRun dfOpt (some S) fc ork now =
      ⟨some S, [], [], [.errorLog], .error⟩ := by
  have hcut : absorptionCut S.meta = .ok none := by
    unfold absorptionCut
    rw [hlo]
  unfold forecasterRun
  split
  · rfl
  split
  · rfl
  split
  · rfl
  simp [hcut, newObsOf_none]

end MonthlyForecast

open MonthlyForecast MonthlyIngest in
/-- Counterexample for C1: a forecaster invocation that fails at the
metadata write (after the blob write inside `save_model`) raises an error
but leaves the ModelState partially updated — the persisted blob has
absorbed the new observation while the metadata (including
`last_observed`) is still the pre-run one. -/
theorem claim_C1_counterexample :
    (forecasterRun (some [⟨some 0, some 1⟩, ⟨some 1, some 2⟩])
      (some ⟨[⟨some 0, some 1⟩], ⟨some (some 0), some (some 0), none, none⟩⟩)
      (fun _ => 0) (fun fp => fp = .saveMeta) "t").outcome = Outcome.error ∧
    (forecasterRun (some [⟨some 0, some 1⟩, ⟨some 1, some 2⟩])
      (some ⟨[⟨some 0, some 1⟩], ⟨some (some 0), some (some 0), none, none⟩⟩)
      (fun _ => 0) (fun fp => fp = .saveMeta) "t").state ≠
      some ⟨[⟨some 0, some 1⟩], ⟨some (some 0), some (some 0), none, none⟩⟩ ∧
    (forecasterRun (some [⟨some 0, some 1⟩, ⟨some 1, some 2⟩])
      (some ⟨[⟨some 0, some 1⟩], ⟨some (some 0), some (some 0), none, none⟩⟩)
      (fun _ => 0) (fun fp => fp = .saveMeta) "t").state.map (fun s => s.blob) =
      some [⟨some 0, some 1⟩, ⟨some 1, some 2⟩] ∧
    (forecasterRun (some [⟨some 0, some 1⟩, ⟨some 1, some 2⟩])
      (some ⟨[⟨some 0, some 1⟩], ⟨some (some 0), some (some 0), none, none⟩⟩)
      (fun _ => 0) (fun fp => fp = .saveMeta) "t").state.map (fun s => s.meta) =
      some ⟨some (some 0), some (some 0), none, none⟩ := by
  refine ⟨by decide, by decide, by decide, by decide⟩

open MonthlyForecast MonthlyIngest in
/-- C1 (amended): a forecaster invocation that fails before the
extend-then-persist step — a failing or missing data read, a failing or
missing model read, a missing or null `last_observed`, or a failure of the
blob write itself — leaves the persisted ModelState exactly as it was and
does not succeed; but a failure after the blob write can leave the
extended state (even a partially updated one) persisted. -/
theorem claim_C1_amended :
    (∀ (dfOpt : Option (List NRec)) (modelOpt : Option ModelFiles)
        (fc : List NRec → ℚ) (ork : FailPoint → Bool) (now : String),
      ork .loadData = true ∨ dfOpt = none ∨ ork .loadModel = true ∨
        modelOpt = none ∨ ork .saveBlob = true →
      (forecasterRun dfOpt modelOpt fc ork now).state = modelOpt ∧
      (forecasterRun dfOpt modelOpt fc ork now).outcome ≠ .success) ∧
    (∀ (dfOpt : Option (List NRec)) (S : ModelFiles) (fc : List NRec → ℚ)
        (ork : FailPoint → Bool) (now : String),
      S.meta.last_observed = none ∨ S.meta.last_observed = some none →
      (forecasterRun dfOpt (some S) fc ork now).state = some S ∧
      (forecasterRun dfOpt (some S) fc ork now).outcome ≠ .success) := by
  constructor
  · intro dfOpt modelOpt fc ork now hpre
    rcases hpre with h | h | h | h | h
    · constructor <;> simp [forecasterRun, h]
    · subst h
      unfold forecasterRun
      split
      · simp
      · simp
    · unfold forecasterRun
      split
      · simp
      split
      · simp
      simp [h]
    · subst h
      unfold forecasterRun
      split
      · simp
      split
      · simp
      split
      · simp
      · simp
    · unfold forecasterRun
      split
      · simp
      split
      · simp
      split
      · simp
      split
      · simp
      split
      · simp
      split
      · split <;> simp
      · simp [h]
  · intro dfOpt S fc ork now hlo
    rcases hlo with h | h
    · rw [run_keyError dfOpt S fc ork now h]
      exact ⟨rfl, by simp⟩
    · rw [run_NaT dfOpt S fc ork now h]
      exact ⟨rfl, by simp⟩

open MonthlyForecast MonthlyIngest in
/-- Witness for C1 (amended): a run failing at the data read leaves the
model state untouched. -/
theorem claim_C1_witness :
    (forecasterRun (some [⟨some 0, some 1⟩])
      (some ⟨[], ⟨some (some 0), none, none, none⟩⟩) (fun _ => 0)
      (fun fp => fp = .loadData) "t").state =
      some ⟨[], ⟨some (some 0), none, none, none⟩⟩ ∧
    (forecasterRun (some [⟨some 0, some 1⟩])
      (some ⟨[], ⟨some (some 0), none, none, none⟩⟩) (fun _ => 0)
      (fun fp => fp = .loadData) "t").outcome ≠ Outcome.success :=
  claim_C1_amended.1 (some [⟨some 0, some 1⟩])
    (some ⟨[], ⟨some (some 0), none, none, none⟩⟩) (fun _ => 0)
    (fun fp => fp = .loadData) "t" (Or.inl (by decide))
